import Mathlib

/-!
# Verification of the cube/pyramid/axes OpenGL demo (`src/main.cpp`)

This file gives a shallow embedding of the program in `src/main.cpp` and
proves properties of it.  C++ strings are modelled as `List Char`, file
contents as the list of lines produced by `getline` (line terminators
stripped), machine integers as `Nat`/`Int`, and `double` camera
coordinates as `ℚ` (every value reached by the program is a small dyadic
rational, represented exactly by an IEEE double, so rational arithmetic
is faithful here).  Calls into OpenGL/GLFW are modelled either as events
appended to a trace or as operations on an explicit driver state.
-/

/-! ## Shader source loading (`ParseShader`, main.cpp lines 35-63) -/

/-- `line.find(tok) != std::string::npos`: `tok` occurs as a contiguous
substring of `line`. -/
def containsTok (line tok : List Char) : Bool :=
  line.tails.any (fun t => tok.isPrefixOf t)

/-- `struct ShaderProgramSource` (main.cpp lines 35-38). -/
structure ShaderProgramSource where
  VertexSource : List Char
  FragmentSource : List Char
deriving DecidableEq

/-- `enum class ShaderType { NONE = -1, VERTEX = 0, FRAGMENT = 1 }`
(main.cpp lines 42-44).  `VERTEX` and `FRAGMENT` are the two valid
indices into the array `std::stringstream ss[2]`; `NONE` corresponds to
the index `-1`, which lies outside the array. -/
inductive ShaderType where
  | NONE
  | VERTEX
  | FRAGMENT
deriving DecidableEq

def shaderTok : List Char := "#shader".toList

def vertexTok : List Char := "vertex".toList

def fragmentTok : List Char := "fragment".toList

/-- The `while (getline(stream, line))` loop of `ParseShader`
(main.cpp lines 49-58).  `s0`/`s1` are the accumulated contents of
`ss[0]`/`ss[1]`.  A tag line (containing `#shader`) switches the active
section; every other line is appended, with a trailing newline, to
`ss[static_cast<int>(type)]`.  When `type` is `NONE` that write targets
`ss[-1]`, an out-of-bounds access with no defined result, modelled as
`none`. -/
def parseLines : List (List Char) → ShaderType → List Char → List Char →
    Option ShaderProgramSource
  | [], _, s0, s1 => some ⟨s0, s1⟩
  | line :: rest, ty, s0, s1 =>
    if containsTok line shaderTok then
      if containsTok line vertexTok then
        parseLines rest ShaderType.VERTEX s0 s1
      else if containsTok line fragmentTok then
        parseLines rest ShaderType.FRAGMENT s0 s1
      else
        parseLines rest ty s0 s1
    else
      match ty with
      | ShaderType.NONE => none
      | ShaderType.VERTEX => parseLines rest ShaderType.VERTEX (s0 ++ line ++ ['\n']) s1
      | ShaderType.FRAGMENT => parseLines rest ShaderType.FRAGMENT s0 (s1 ++ line ++ ['\n'])

/-- `ParseShader` (main.cpp lines 40-63), with the opened file stream
modelled as the list of its lines; a missing or unreadable file yields
the empty list of lines. -/
def ParseShader (lines : List (List Char)) : Option ShaderProgramSource :=
  parseLines lines ShaderType.NONE [] []

/-- The string a section buffer holds after the lines `ls` have been
appended to it in order: each line followed by its newline. -/
def joinNl : List (List Char) → List Char
  | [] => []
  | l :: ls => l ++ '\n' :: joinNl ls

theorem joinNl_ne_nil (l : List Char) (ls : List (List Char)) :
    joinNl (l :: ls) ≠ [] := by
  simp [joinNl]

theorem parseLines_skip_vertex (ls : List (List Char))
    (h : ∀ l ∈ ls, containsTok l shaderTok = false) :
    ∀ (rest : List (List Char)) (s0 s1 : List Char),
      parseLines (ls ++ rest) ShaderType.VERTEX s0 s1 =
        parseLines rest ShaderType.VERTEX (s0 ++ joinNl ls) s1 := by
  induction ls with
  | nil => intro rest s0 s1; simp [joinNl]
  | cons l ls ih =>
      intro rest s0 s1
      have hl : containsTok l shaderTok = false := h l (by simp)
      have hls : ∀ x ∈ ls, containsTok x shaderTok = false := by
        intro x hx; exact h x (by simp [hx])
      simp only [List.cons_append, parseLines, hl, Bool.false_eq_true, if_false,
        List.append_eq]
      rw [ih hls]
      simp [joinNl, List.append_assoc]

theorem parseLines_skip_fragment (ls : List (List Char))
    (h : ∀ l ∈ ls, containsTok l shaderTok = false) :
    ∀ (rest : List (List Char)) (s0 s1 : List Char),
      parseLines (ls ++ rest) ShaderType.FRAGMENT s0 s1 =
        parseLines rest ShaderType.FRAGMENT s0 (s1 ++ joinNl ls) := by
  induction ls with
  | nil => intro rest s0 s1; simp [joinNl]
  | cons l ls ih =>
      intro rest s0 s1
      have hl : containsTok l shaderTok = false := h l (by simp)
      have hls : ∀ x ∈ ls, containsTok x shaderTok = false := by
        intro x hx; exact h x (by simp [hx])
      simp only [List.cons_append, parseLines, hl, Bool.false_eq_true, if_false,
        List.append_eq]
      rw [ih hls]
      simp [joinNl, List.append_assoc]

/-- C2.  The spec claims lines before any `#shader` tag are silently
discarded, and that a file with no tags yields two empty sections.  The
code instead appends such lines to `ss[static_cast<int>(type)]` with
`type == ShaderType::NONE == -1`: an out-of-bounds write into the
two-element array `std::stringstream ss[2]`, i.e. undefined behavior,
not a discard.  Evaluating the model at a one-line file with no tag
yields the undefined-behavior marker `none`, not two empty sections.
(An empty file, by contrast, does return two empty sections.) -/
theorem c2_pretag_lines_undefined :
    ParseShader ["hello".toList] = none ∧
    ParseShader [] = some ⟨[], []⟩ := by
  constructor
  · decide
  · rfl

/-- C3.  For a well-formed shader file — one vertex tag line and one
fragment tag line, in either order, each followed by at least one
ordinary line (no `#shader` occurrence) — `ParseShader` returns exactly
the lines following each tag, in order, each with its newline, and both
sections are non-empty. -/
theorem c3_well_formed_sections
    (vt ft : List Char) (vls fls : List (List Char))
    (hvt1 : containsTok vt shaderTok = true)
    (hvt2 : containsTok vt vertexTok = true)
    (hft1 : containsTok ft shaderTok = true)
    (hft2 : containsTok ft vertexTok = false)
    (hft3 : containsTok ft fragmentTok = true)
    (hvls : ∀ l ∈ vls, containsTok l shaderTok = false)
    (hfls : ∀ l ∈ fls, containsTok l shaderTok = false)
    (hvne : vls ≠ []) (hfne : fls ≠ []) :
    ParseShader (vt :: (vls ++ ft :: fls)) = some ⟨joinNl vls, joinNl fls⟩ ∧
    ParseShader (ft :: (fls ++ vt :: vls)) = some ⟨joinNl vls, joinNl fls⟩ ∧
    joinNl vls ≠ [] ∧ joinNl fls ≠ [] := by
  refine ⟨?_, ?_, ?_, ?_⟩
  · show parseLines (vt :: (vls ++ ft :: fls)) ShaderType.NONE [] [] = _
    simp only [parseLines, hvt1, hvt2, if_true]
    rw [parseLines_skip_vertex vls hvls]
    simp only [List.nil_append, parseLines, hft1, hft2, hft3, if_true,
      Bool.false_eq_true, if_false]
    have h2 := parseLines_skip_fragment fls hfls [] (joinNl vls) []
    rw [List.append_nil] at h2
    rw [h2]
    simp [parseLines]
  · show parseLines (ft :: (fls ++ vt :: vls)) ShaderType.NONE [] [] = _
    simp only [parseLines, hft1, hft2, hft3, if_true, Bool.false_eq_true, if_false]
    rw [parseLines_skip_fragment fls hfls]
    simp only [List.nil_append, parseLines, hvt1, hvt2, if_true]
    have h2 := parseLines_skip_vertex vls hvls [] [] (joinNl fls)
    rw [List.append_nil] at h2
    rw [h2]
    simp [parseLines]
  · cases vls with
    | nil => exact absurd rfl hvne
    | cons l ls => exact joinNl_ne_nil l ls
  · cases fls with
    | nil => exact absurd rfl hfne
    | cons l ls => exact joinNl_ne_nil l ls

/-- Witness for C3 at a concrete well-formed two-section file. -/
theorem c3_well_formed_sections_witness :
    containsTok "#shader vertex".toList shaderTok = true ∧
    containsTok "#shader fragment".toList vertexTok = false ∧
    (∀ l ∈ ["vpos".toList], containsTok l shaderTok = false) ∧
    ParseShader ("#shader vertex".toList ::
        (["vpos".toList] ++ "#shader fragment".toList :: ["fcol".toList])) =
      some ⟨joinNl ["vpos".toList], joinNl ["fcol".toList]⟩ :=
  ⟨by decide, by decide, by decide,
    (c3_well_formed_sections "#shader vertex".toList "#shader fragment".toList
      ["vpos".toList] ["fcol".toList] (by decide) (by decide) (by decide)
      (by decide) (by decide) (by decide) (by decide) (by decide) (by decide)).1⟩

/-! ## Shader compilation (`CompileShader`/`CreateShader`, main.cpp lines 65-99)

The OpenGL driver is modelled as an explicit state: a fresh-id counter
(`glCreateShader`/`glCreateProgram` return successive non-zero names), the
set of live shader objects, an oracle `compileOk` saying whether a given
stage/source pair compiles, an oracle `infoLog` giving the driver's
diagnostic text for it, and a counter of `glCompileShader` invocations. -/

def GL_VERTEX_SHADER : Nat := 35633

def GL_FRAGMENT_SHADER : Nat := 35632

structure GLState where
  nextId : Nat
  liveShaders : List Nat
  compileOk : Nat → List Char → Bool
  infoLog : Nat → List Char → List Char
  compileCalls : Nat

/-- `glCreateShader(type)`: returns a fresh object name and records it
as live. -/
def glCreateShader (st : GLState) : GLState × Nat :=
  ({ st with nextId := st.nextId + 1, liveShaders := st.nextId :: st.liveShaders },
    st.nextId)

/-- `glCreateProgram()`: returns a fresh object name. -/
def glCreateProgram (st : GLState) : GLState × Nat :=
  ({ st with nextId := st.nextId + 1 }, st.nextId)

/-- `glDeleteShader(id)`: the object is no longer live (deleting name 0,
as `CreateShader` does for a failed stage, is a no-op). -/
def glDeleteShader (st : GLState) (id : Nat) : GLState :=
  { st with liveShaders := st.liveShaders.erase id }

/-- The message printed on a failed compile of the given stage type
(main.cpp line 78). -/
def compileFailMsg (ty : Nat) : List Char :=
  "Failed to compile ".toList ++
    (if ty = GL_VERTEX_SHADER then "vertex".toList else "fragment".toList) ++
    " shader!".toList

/-- `CompileShader` (main.cpp lines 65-84): create a shader object,
hand the source to the compiler, and query `GL_COMPILE_STATUS`.  On
failure it prints the stage name and the driver's info log, deletes the
shader object, and returns 0; on success it returns the object's id.
The result is `(driver state, returned id, lines printed to stdout)`. -/
def CompileShader (st : GLState) (ty : Nat) (source : List Char) :
    GLState × Nat × List (List Char) :=
  let p := glCreateShader st
  let st1 := { p.1 with compileCalls := p.1.compileCalls + 1 }
  if st1.compileOk ty source = false then
    (glDeleteShader st1 p.2, 0, [compileFailMsg ty, st1.infoLog ty source])
  else
    (st1, p.2, [])

/-- `CreateShader` (main.cpp lines 86-99): create a program object,
compile both stages, attach, link, validate, delete the stage objects,
and return the program id — the program id from `glCreateProgram` is
returned unconditionally, whether or not either stage compiled. -/
def CreateShader (st : GLState) (vertexShader fragmentShader : List Char) :
    GLState × Nat × List (List Char) :=
  let p := glCreateProgram st
  let v := CompileShader p.1 GL_VERTEX_SHADER vertexShader
  let f := CompileShader v.1 GL_FRAGMENT_SHADER fragmentShader
  let st3 := glDeleteShader (glDeleteShader f.1 v.2.1) f.2.1
  (st3, p.2, v.2.2 ++ f.2.2)

/-- A driver state in which no source compiles: fresh names start at 1,
and every compile fails with the diagnostic text `error: syntax`. -/
def failingGL : GLState :=
  { nextId := 1, liveShaders := [],
    compileOk := fun _ _ => false,
    infoLog := fun _ _ => "error: syntax".toList,
    compileCalls := 0 }

/-- C1 counterexample.  In a driver state where the vertex stage fails
to compile (so a compile-failure diagnostic is printed), `CreateShader`
still returns the program name issued by `glCreateProgram` — here 1 —
and not the sentinel 0 the claim requires. -/
theorem c1_counterexample :
    failingGL.compileOk GL_VERTEX_SHADER "bad".toList = false ∧
    (CreateShader failingGL "bad".toList "bad".toList).2.2 ≠ [] ∧
    (CreateShader failingGL "bad".toList "bad".toList).2.1 = 1 ∧
    (1 : Nat) ≠ 0 := by
  refine ⟨rfl, ?_, rfl, by decide⟩
  decide

/-- C1 (amended).  `CreateShader` unconditionally returns the program
name issued by `glCreateProgram`; since object names are non-zero, the
returned handle is non-zero both when both stages compile and when a
stage fails — the stage failure is signalled only by `CompileShader`
returning 0 and logging, never by `CreateShader`'s result. -/
theorem c1_create_shader_returns_program (st : GLState) (v f : List Char)
    (h : st.nextId ≠ 0) :
    (CreateShader st v f).2.1 = st.nextId ∧ (CreateShader st v f).2.1 ≠ 0 := by
  have he : (CreateShader st v f).2.1 = st.nextId := rfl
  exact ⟨he, by rw [he]; exact h⟩

/-- Witness for the amended C1: in the all-compiles-fail driver state
the returned program handle is still non-zero. -/
theorem c1_create_shader_returns_program_witness :
    failingGL.nextId ≠ 0 ∧
    (CreateShader failingGL "x".toList "y".toList).2.1 ≠ 0 :=
  ⟨by decide,
    (c1_create_shader_returns_program failingGL "x".toList "y".toList (by decide)).2⟩

/-- C8.  `CompileShader` on a failing stage returns 0, prints exactly
the stage name (`vertex` for `GL_VERTEX_SHADER`, otherwise `fragment`)
followed by the driver's diagnostic text, and deletes the shader object
it created (the object is not live afterwards); on a succeeding stage it
returns the object name issued by `glCreateShader`, prints nothing, and
the object stays live.  In either case the compiler is invoked exactly
once — no retry. -/
theorem c8_compile_shader_behavior (st : GLState) (ty : Nat) (src : List Char)
    (hfresh : st.nextId ∉ st.liveShaders) :
    (st.compileOk ty src = false →
      (CompileShader st ty src).2.1 = 0 ∧
      (CompileShader st ty src).2.2 = [compileFailMsg ty, st.infoLog ty src] ∧
      st.nextId ∉ (CompileShader st ty src).1.liveShaders) ∧
    (st.compileOk ty src = true →
      (CompileShader st ty src).2.1 = st.nextId ∧
      (CompileShader st ty src).2.2 = [] ∧
      st.nextId ∈ (CompileShader st ty src).1.liveShaders) ∧
    (CompileShader st ty src).1.compileCalls = st.compileCalls + 1 := by
  by_cases hc : st.compileOk ty src = false
  · refine ⟨fun _ => ?_, fun ht => absurd ht (by simp [hc]), ?_⟩
    · simp [CompileShader, glCreateShader, glDeleteShader, hc, hfresh]
    · simp [CompileShader, glCreateShader, glDeleteShader, hc]
  · have ht : st.compileOk ty src = true := by
      cases hcc : st.compileOk ty src
      · exact absurd hcc hc
      · rfl
    refine ⟨fun hf => absurd hf (by simp [ht]), fun _ => ?_, ?_⟩
    · simp [CompileShader, glCreateShader, ht]
    · simp [CompileShader, glCreateShader, glDeleteShader, ht]

/-- Witness for C8: a concrete failing compile of the vertex stage
returns 0 and logs the stage name plus the diagnostic. -/
theorem c8_compile_shader_behavior_witness :
    failingGL.nextId ∉ failingGL.liveShaders ∧
    failingGL.compileOk GL_VERTEX_SHADER "bad".toList = false ∧
    (CompileShader failingGL GL_VERTEX_SHADER "bad".toList).2.1 = 0 ∧
    (CompileShader failingGL GL_VERTEX_SHADER "bad".toList).2.2 =
      [compileFailMsg GL_VERTEX_SHADER, "error: syntax".toList] :=
  ⟨by decide, rfl,
    ((c8_compile_shader_behavior failingGL GL_VERTEX_SHADER "bad".toList
        (by decide)).1 rfl).1,
    ((c8_compile_shader_behavior failingGL GL_VERTEX_SHADER "bad".toList
        (by decide)).1 rfl).2.1⟩

/-! ## Camera state and the key callback (main.cpp lines 101-163)

The globals `eyeX/eyeY/eyeZ` (`double`, exactly representable, modelled
as `ℚ`), the window-close flag, and the global `view` matrix.
`glm::lookAt` is a pure library function of its three vector arguments,
so the view matrix is represented by those arguments. -/

structure Vec3 where
  x : ℚ
  y : ℚ
  z : ℚ
deriving DecidableEq

/-- The value of the global `view` matrix, represented by the arguments
it was computed from: `glm::lookAt(eye, center, up)`. -/
structure LookAtView where
  eye : Vec3
  center : Vec3
  up : Vec3
deriving DecidableEq

def glmLookAt (eye center up : Vec3) : LookAtView := ⟨eye, center, up⟩

/-- The mutable globals touched by `keyCallback`, plus the GLFW
window-close flag set by `glfwSetWindowShouldClose`. -/
structure AppState where
  shouldClose : Bool
  eyeX : ℚ
  eyeY : ℚ
  eyeZ : ℚ
  view : LookAtView
deriving DecidableEq

/-- Initial globals (main.cpp lines 101-109): eye (5,3,5), target the
origin, up (0,1,0), window not closing. -/
def initialAppState : AppState :=
  { shouldClose := false, eyeX := 5, eyeY := 3, eyeZ := 5,
    view := glmLookAt ⟨5, 3, 5⟩ ⟨0, 0, 0⟩ ⟨0, 1, 0⟩ }

def GLFW_RELEASE : Int := 0

def GLFW_PRESS : Int := 1

def GLFW_REPEAT : Int := 2

def GLFW_KEY_ESCAPE : Int := 256

def GLFW_KEY_SPACE : Int := 32

def GLFW_KEY_LEFT_CONTROL : Int := 341

def GLFW_KEY_W : Int := 87

def GLFW_KEY_S : Int := 83

def GLFW_KEY_A : Int := 65

def GLFW_KEY_D : Int := 68

/-- `keyCallback` (main.cpp lines 111-163): a sequence of independent
`if (key == K && action == GLFW_PRESS)` blocks, each mutating one
camera coordinate by ±0.5 and then recomputing `view` from the updated
eye position, target `(0,0,0)` and up `(0,1,0)`; the Escape block only
sets the window-close flag.  `scancode` and `mods` are unused. -/
def keyCallback (st : AppState) (key scancode action mods : Int) : AppState :=
  let st := if key = GLFW_KEY_ESCAPE ∧ action = GLFW_PRESS then
      { st with shouldClose := true }
    else st
  let st := if key = GLFW_KEY_SPACE ∧ action = GLFW_PRESS then
      let st := { st with eyeY := st.eyeY + 1/2 }
      { st with view := glmLookAt ⟨st.eyeX, st.eyeY, st.eyeZ⟩ ⟨0, 0, 0⟩ ⟨0, 1, 0⟩ }
    else st
  let st := if key = GLFW_KEY_LEFT_CONTROL ∧ action = GLFW_PRESS then
      let st := { st with eyeY := st.eyeY - 1/2 }
      { st with view := glmLookAt ⟨st.eyeX, st.eyeY, st.eyeZ⟩ ⟨0, 0, 0⟩ ⟨0, 1, 0⟩ }
    else st
  let st := if key = GLFW_KEY_W ∧ action = GLFW_PRESS then
      let st := { st with eyeZ := st.eyeZ - 1/2 }
      { st with view := glmLookAt ⟨st.eyeX, st.eyeY, st.eyeZ⟩ ⟨0, 0, 0⟩ ⟨0, 1, 0⟩ }
    else st
  let st := if key = GLFW_KEY_S ∧ action = GLFW_PRESS then
      let st := { st with eyeZ := st.eyeZ + 1/2 }
      { st with view := glmLookAt ⟨st.eyeX, st.eyeY, st.eyeZ⟩ ⟨0, 0, 0⟩ ⟨0, 1, 0⟩ }
    else st
  let st := if key = GLFW_KEY_A ∧ action = GLFW_PRESS then
      let st := { st with eyeX := st.eyeX - 1/2 }
      { st with view := glmLookAt ⟨st.eyeX, st.eyeY, st.eyeZ⟩ ⟨0, 0, 0⟩ ⟨0, 1, 0⟩ }
    else st
  let st := if key = GLFW_KEY_D ∧ action = GLFW_PRESS then
      let st := { st with eyeX := st.eyeX + 1/2 }
      { st with view := glmLookAt ⟨st.eyeX, st.eyeY, st.eyeZ⟩ ⟨0, 0, 0⟩ ⟨0, 1, 0⟩ }
    else st
  st

/-- Camera movement as the spec words it: add the step to exactly one
eye component and immediately recompute the view matrix from the new
eye position, the hardcoded origin target and up vector. -/
def specMoveCam (st : AppState) (dx dy dz : ℚ) : AppState :=
  { shouldClose := st.shouldClose,
    eyeX := st.eyeX + dx, eyeY := st.eyeY + dy, eyeZ := st.eyeZ + dz,
    view := glmLookAt ⟨st.eyeX + dx, st.eyeY + dy, st.eyeZ + dz⟩ ⟨0, 0, 0⟩ ⟨0, 1, 0⟩ }

/-- Written from the spec's words (sections 4.5 and 6, "Keyboard
surface"), for comparison with `keyCallback`: on key-press edge events
only, Escape requests window close; Space and Left-Ctrl adjust camera Y
by +0.5 / -0.5, W and S adjust camera Z by -0.5 / +0.5, A and D adjust
camera X by -0.5 / +0.5, each recomputing the view matrix; every other
key, and every non-press action, leaves the state untouched. -/
def specKeyResponse (st : AppState) (key action : Int) : AppState :=
  if action ≠ GLFW_PRESS then st
  else if key = GLFW_KEY_ESCAPE then { st with shouldClose := true }
  else if key = GLFW_KEY_SPACE then specMoveCam st 0 (1/2) 0
  else if key = GLFW_KEY_LEFT_CONTROL then specMoveCam st 0 (-(1/2)) 0
  else if key = GLFW_KEY_W then specMoveCam st 0 0 (-(1/2))
  else if key = GLFW_KEY_S then specMoveCam st 0 0 (1/2)
  else if key = GLFW_KEY_A then specMoveCam st (-(1/2)) 0 0
  else if key = GLFW_KEY_D then specMoveCam st (1/2) 0 0
  else st

/-- C6.  `keyCallback` agrees with the spec's description of the input
handler on every state, key, scancode, action and modifier: Escape
(press) requests window close; Space/Left-Ctrl move camera Y by ±0.5,
W/S camera Z by ∓/±0.5, A/D camera X by ∓/±0.5, each movement touching
exactly one component and recomputing the view matrix from scratch as
look-at(new eye, origin, (0,1,0)); no other key and no non-press action
changes anything. -/
theorem c6_key_handler_matches_spec (st : AppState)
    (key scancode action mods : Int) :
    keyCallback st key scancode action mods = specKeyResponse st key action := by
  by_cases ha : action = GLFW_PRESS
  · by_cases h1 : key = GLFW_KEY_ESCAPE
    · simp_all [keyCallback, specKeyResponse, specMoveCam, glmLookAt,
        GLFW_KEY_ESCAPE, GLFW_KEY_SPACE, GLFW_KEY_LEFT_CONTROL, GLFW_KEY_W,
        GLFW_KEY_S, GLFW_KEY_A, GLFW_KEY_D, GLFW_PRESS]
    · by_cases h2 : key = GLFW_KEY_SPACE
      · simp_all [keyCallback, specKeyResponse, specMoveCam, glmLookAt,
          GLFW_KEY_ESCAPE, GLFW_KEY_SPACE, GLFW_KEY_LEFT_CONTROL, GLFW_KEY_W,
          GLFW_KEY_S, GLFW_KEY_A, GLFW_KEY_D, GLFW_PRESS]
      · by_cases h3 : key = GLFW_KEY_LEFT_CONTROL
        · simp_all [keyCallback, specKeyResponse, specMoveCam, glmLookAt,
            GLFW_KEY_ESCAPE, GLFW_KEY_SPACE, GLFW_KEY_LEFT_CONTROL, GLFW_KEY_W,
            GLFW_KEY_S, GLFW_KEY_A, GLFW_KEY_D, GLFW_PRESS, sub_eq_add_neg]
        · by_cases h4 : key = GLFW_KEY_W
          · simp_all [keyCallback, specKeyResponse, specMoveCam, glmLookAt,
              GLFW_KEY_ESCAPE, GLFW_KEY_SPACE, GLFW_KEY_LEFT_CONTROL, GLFW_KEY_W,
              GLFW_KEY_S, GLFW_KEY_A, GLFW_KEY_D, GLFW_PRESS, sub_eq_add_neg]
          · by_cases h5 : key = GLFW_KEY_S
            · simp_all [keyCallback, specKeyResponse, specMoveCam, glmLookAt,
                GLFW_KEY_ESCAPE, GLFW_KEY_SPACE, GLFW_KEY_LEFT_CONTROL, GLFW_KEY_W,
                GLFW_KEY_S, GLFW_KEY_A, GLFW_KEY_D, GLFW_PRESS]
            · by_cases h6 : key = GLFW_KEY_A
              · simp_all [keyCallback, specKeyResponse, specMoveCam, glmLookAt,
                  GLFW_KEY_ESCAPE, GLFW_KEY_SPACE, GLFW_KEY_LEFT_CONTROL, GLFW_KEY_W,
                  GLFW_KEY_S, GLFW_KEY_A, GLFW_KEY_D, GLFW_PRESS, sub_eq_add_neg]
              · by_cases h7 : key = GLFW_KEY_D
                · simp_all [keyCallback, specKeyResponse, specMoveCam, glmLookAt,
                    GLFW_KEY_ESCAPE, GLFW_KEY_SPACE, GLFW_KEY_LEFT_CONTROL, GLFW_KEY_W,
                    GLFW_KEY_S, GLFW_KEY_A, GLFW_KEY_D, GLFW_PRESS]
                · simp_all [keyCallback, specKeyResponse]
  · simp_all [keyCallback, specKeyResponse]

/-- C5.  One press of D adds exactly 0.5 to the camera's X position and
leaves Y and Z unchanged; a second press brings the total increase to
exactly 1.0.  This holds for every starting state, scancode and
modifier bits. -/
theorem c5_d_key_moves_plus_x (st : AppState) (sc1 m1 sc2 m2 : Int) :
    (keyCallback st GLFW_KEY_D sc1 GLFW_PRESS m1).eyeX = st.eyeX + 1/2 ∧
    (keyCallback st GLFW_KEY_D sc1 GLFW_PRESS m1).eyeY = st.eyeY ∧
    (keyCallback st GLFW_KEY_D sc1 GLFW_PRESS m1).eyeZ = st.eyeZ ∧
    (keyCallback (keyCallback st GLFW_KEY_D sc1 GLFW_PRESS m1)
        GLFW_KEY_D sc2 GLFW_PRESS m2).eyeX = st.eyeX + 1 := by
  refine ⟨?_, ?_, ?_, ?_⟩ <;>
    simp [keyCallback, GLFW_KEY_ESCAPE, GLFW_KEY_SPACE, GLFW_KEY_LEFT_CONTROL,
      GLFW_KEY_W, GLFW_KEY_S, GLFW_KEY_A, GLFW_KEY_D, GLFW_PRESS] <;>
    ring

/-! ## The render loop (main.cpp lines 317-360)

Each loop iteration is modelled as the list of OpenGL/GLFW calls it
issues, in order.  Matrices are kept abstract: the frame context
carries the current `proj`, `view` and model matrices of an arbitrary
type `M` together with glm's matrix product, so the trace records
exactly which product of which matrices is uploaded. -/

def GL_COLOR_BUFFER_BIT : Nat := 16384

def GL_DEPTH_BUFFER_BIT : Nat := 256

def GL_TRIANGLES : Nat := 4

def GL_LINES : Nat := 1

def GL_UNSIGNED_INT : Nat := 5125

inductive RenderCmd (M : Type) where
  | glClear (mask : Nat)
  | glUseProgram (program : Nat)
  | glBindVertexArray (vao : Nat)
  | glUniformMatrix4fv (location : Int) (matrix : M)
  | glUniform4f (location : Int) (r g b a : ℚ)
  | glDrawElements (mode count indexType : Nat)
  | glDrawArrays (mode first count : Nat)
  | glfwSwapBuffers
  | glfwPollEvents

/-- Everything the loop body reads: glm's matrix product `mul`, the
current matrices, the object names created during initialization, and
`glGetUniformLocation` as a pure query `loc program name`. -/
structure FrameCtx (M : Type) where
  mul : M → M → M
  proj : M
  view : M
  cubeModel : M
  pyramidModel : M
  cubeShader : Nat
  pyramidShader : Nat
  axesShader : Nat
  cubeVao : Nat
  pyramidVao : Nat
  axesVao : Nat
  loc : Nat → String → Int

/-- "Draw the cube" (main.cpp lines 320-326): recompute
`cubeMvp = proj * view * cubeModel`, bind program and geometry, upload
the MVP, draw 36 indices. -/
def cubeDrawCmds {M : Type} (ctx : FrameCtx M) : List (RenderCmd M) :=
  [RenderCmd.glUseProgram ctx.cubeShader,
   RenderCmd.glBindVertexArray ctx.cubeVao,
   RenderCmd.glUniformMatrix4fv (ctx.loc ctx.cubeShader "u_MVP")
     (ctx.mul (ctx.mul ctx.proj ctx.view) ctx.cubeModel),
   RenderCmd.glDrawElements GL_TRIANGLES 36 GL_UNSIGNED_INT]

/-- "Draw the pyramid" (main.cpp lines 329-336): as for the cube, with
`pyramidMvp = proj * view * pyramidModel` and 18 indices. -/
def pyramidDrawCmds {M : Type} (ctx : FrameCtx M) : List (RenderCmd M) :=
  [RenderCmd.glUseProgram ctx.pyramidShader,
   RenderCmd.glBindVertexArray ctx.pyramidVao,
   RenderCmd.glUniformMatrix4fv (ctx.loc ctx.pyramidShader "u_MVP")
     (ctx.mul (ctx.mul ctx.proj ctx.view) ctx.pyramidModel),
   RenderCmd.glDrawElements GL_TRIANGLES 18 GL_UNSIGNED_INT]

/-- "Draw the axes" (main.cpp lines 338-356): `axesMvp = proj * view`,
bind program and geometry, upload the MVP, then for each of the three
2-vertex segments set the color uniform (red, green, blue) and issue a
non-indexed line draw. -/
def axesDrawCmds {M : Type} (ctx : FrameCtx M) : List (RenderCmd M) :=
  [RenderCmd.glUseProgram ctx.axesShader,
   RenderCmd.glBindVertexArray ctx.axesVao,
   RenderCmd.glUniformMatrix4fv (ctx.loc ctx.axesShader "u_MVP")
     (ctx.mul ctx.proj ctx.view),
   RenderCmd.glUniform4f (ctx.loc ctx.axesShader "u_Color") 1 0 0 1,
   RenderCmd.glDrawArrays GL_LINES 0 2,
   RenderCmd.glUniform4f (ctx.loc ctx.axesShader "u_Color") 0 1 0 1,
   RenderCmd.glDrawArrays GL_LINES 2 2,
   RenderCmd.glUniform4f (ctx.loc ctx.axesShader "u_Color") 0 0 1 1,
   RenderCmd.glDrawArrays GL_LINES 4 2]

/-- One iteration of the `while (!glfwWindowShouldClose(window))` loop
(main.cpp lines 317-360): clear, draw cube, pyramid, axes, present the
frame, poll events. -/
def frameBody {M : Type} (ctx : FrameCtx M) : List (RenderCmd M) :=
  RenderCmd.glClear (GL_COLOR_BUFFER_BIT ||| GL_DEPTH_BUFFER_BIT) ::
    (cubeDrawCmds ctx ++ pyramidDrawCmds ctx ++ axesDrawCmds ctx ++
      [RenderCmd.glfwSwapBuffers, RenderCmd.glfwPollEvents])

/-- The trace of `n` iterations of the render loop. -/
def renderLoopTrace {M : Type} (ctx : FrameCtx M) : Nat → List (RenderCmd M)
  | 0 => []
  | n + 1 => frameBody ctx ++ renderLoopTrace ctx n

/-- `n` concatenated copies of a list. -/
def nCopies {α : Type} : Nat → List α → List α
  | 0, _ => []
  | n + 1, l => l ++ nCopies n l

/-- C4.  Every iteration of the render loop issues, in this fixed
order: clear color+depth; the cube as an indexed draw of exactly 36
indices; the pyramid as an indexed draw of exactly 18 indices; the axes
as three non-indexed 2-vertex line draws with the color uniform set to
red, green and blue respectively; then the frame is presented and
events are polled.  Each drawable's draw is preceded by an upload of
its combined transform — `proj * view * model` for cube and pyramid,
`proj * view` (the axes model being the identity) for the axes — to the
`u_MVP` uniform of its bound program. -/
theorem c4_render_loop_trace {M : Type} (ctx : FrameCtx M) (n : Nat) :
    renderLoopTrace ctx n = nCopies n
      [RenderCmd.glClear (GL_COLOR_BUFFER_BIT ||| GL_DEPTH_BUFFER_BIT),
       RenderCmd.glUseProgram ctx.cubeShader,
       RenderCmd.glBindVertexArray ctx.cubeVao,
       RenderCmd.glUniformMatrix4fv (ctx.loc ctx.cubeShader "u_MVP")
         (ctx.mul (ctx.mul ctx.proj ctx.view) ctx.cubeModel),
       RenderCmd.glDrawElements GL_TRIANGLES 36 GL_UNSIGNED_INT,
       RenderCmd.glUseProgram ctx.pyramidShader,
       RenderCmd.glBindVertexArray ctx.pyramidVao,
       RenderCmd.glUniformMatrix4fv (ctx.loc ctx.pyramidShader "u_MVP")
         (ctx.mul (ctx.mul ctx.proj ctx.view) ctx.pyramidModel),
       RenderCmd.glDrawElements GL_TRIANGLES 18 GL_UNSIGNED_INT,
       RenderCmd.glUseProgram ctx.axesShader,
       RenderCmd.glBindVertexArray ctx.axesVao,
       RenderCmd.glUniformMatrix4fv (ctx.loc ctx.axesShader "u_MVP")
         (ctx.mul ctx.proj ctx.view),
       RenderCmd.glUniform4f (ctx.loc ctx.axesShader "u_Color") 1 0 0 1,
       RenderCmd.glDrawArrays GL_LINES 0 2,
       RenderCmd.glUniform4f (ctx.loc ctx.axesShader "u_Color") 0 1 0 1,
       RenderCmd.glDrawArrays GL_LINES 2 2,
       RenderCmd.glUniform4f (ctx.loc ctx.axesShader "u_Color") 0 0 1 1,
       RenderCmd.glDrawArrays GL_LINES 4 2,
       RenderCmd.glfwSwapBuffers,
       RenderCmd.glfwPollEvents] := by
  induction n with
  | zero => rfl
  | succ n ih =>
      simp [renderLoopTrace, nCopies, ih, frameBody, cubeDrawCmds,
        pyramidDrawCmds, axesDrawCmds]

/-! ## Startup, shutdown and exit codes (main.cpp lines 165-183, 362-366) -/

/-- Lifecycle events of `main` observable from outside the render
loop. -/
inductive MainEv where
  | frameEv
  | deleteProgramEv (program : Nat)
  | glfwTerminateEv
deriving DecidableEq

/-- The control skeleton of `main` (main.cpp lines 165-183 and
317-366): `glfwInit` failure returns -1 at once; window-creation
failure calls `glfwTerminate` and returns -1; `glewInit` failure
returns -1; otherwise the render loop runs for `frames` iterations
until the close flag is observed, the three shader programs are
deleted (cube, pyramid, axes, in that order), GLFW is torn down, and
the process returns 0. -/
def mainRun (glfwInitOk createWindowOk glewInitOk : Bool)
    (cubeShader pyramidShader axesShader : Nat) (frames : Nat) :
    Int × List MainEv :=
  if glfwInitOk = false then (-1, [])
  else if createWindowOk = false then (-1, [MainEv.glfwTerminateEv])
  else if glewInitOk = false then (-1, [])
  else
    (0, List.replicate frames MainEv.frameEv ++
      [MainEv.deleteProgramEv cubeShader, MainEv.deleteProgramEv pyramidShader,
       MainEv.deleteProgramEv axesShader, MainEv.glfwTerminateEv])

/-- C7.  If the windowing subsystem fails to initialize, the window
fails to create, or GPU function loading fails, `main` returns -1 and
no render-loop iteration ever runs; on the normal path it runs the
loop until close, deletes the three program objects, tears down GLFW,
and returns 0. -/
theorem c7_exit_codes (g w l : Bool) (cs ps axs : Nat) (n : Nat) :
    (g = false ∨ w = false ∨ l = false →
      (mainRun g w l cs ps axs n).1 = -1 ∧
      MainEv.frameEv ∉ (mainRun g w l cs ps axs n).2) ∧
    (g = true → w = true → l = true →
      mainRun g w l cs ps axs n =
        (0, List.replicate n MainEv.frameEv ++
          [MainEv.deleteProgramEv cs, MainEv.deleteProgramEv ps,
           MainEv.deleteProgramEv axs, MainEv.glfwTerminateEv])) := by
  cases g <;> cases w <;> cases l <;> simp [mainRun]

/-- Witness for C7: a failed `glfwInit` yields -1 with no frame drawn;
an all-successful run with two frames yields 0 after deleting the three
programs and terminating GLFW. -/
theorem c7_exit_codes_witness :
    ((false : Bool) = false ∨ (true : Bool) = false ∨ (true : Bool) = false) ∧
    (mainRun false true true 1 2 3 5).1 = -1 ∧
    MainEv.frameEv ∉ (mainRun false true true 1 2 3 5).2 ∧
    mainRun true true true 1 2 3 2 =
      (0, List.replicate 2 MainEv.frameEv ++
        [MainEv.deleteProgramEv 1, MainEv.deleteProgramEv 2,
         MainEv.deleteProgramEv 3, MainEv.glfwTerminateEv]) :=
  ⟨Or.inl rfl,
    ((c7_exit_codes false true true 1 2 3 5).1 (Or.inl rfl)).1,
    ((c7_exit_codes false true true 1 2 3 5).1 (Or.inl rfl)).2,
    (c7_exit_codes true true true 1 2 3 2).2 rfl rfl rfl⟩

/-! ## Shader file loading in `main` (main.cpp lines 292-300) -/

def cubeShaderPath : String := "res/shaders/Cube.shader"

def axesShaderPath : String := "res/shaders/Axes.shader"

/-- The shader-loading sequence of `main`: parse `Cube.shader` for the
cube program, `Axes.shader` for the axes program, and `Cube.shader`
again for the pyramid program.  `fs` maps a path to the lines of the
file it names.  Returns the three parsed sources (cube, axes, pyramid)
and the list of paths opened, in program order. -/
def loadSceneShaders (fs : String → List (List Char)) :
    (Option ShaderProgramSource × Option ShaderProgramSource ×
      Option ShaderProgramSource) × List String :=
  let srcCube := ParseShader (fs cubeShaderPath)
  let srcAxes := ParseShader (fs axesShaderPath)
  let srcPyramid := ParseShader (fs cubeShaderPath)
  ((srcCube, srcAxes, srcPyramid), [cubeShaderPath, axesShaderPath, cubeShaderPath])

/-- C9.  For every filesystem, the pyramid's shader source is parsed
from the very same file as the cube's (`res/shaders/Cube.shader`), so
the two programs are built from identical vertex and fragment sources;
the only paths ever opened are `Cube.shader` (twice) and
`Axes.shader` — no separate pyramid shader file exists. -/
theorem c9_pyramid_shares_cube_shader (fs : String → List (List Char)) :
    (loadSceneShaders fs).1.2.2 = (loadSceneShaders fs).1.1 ∧
    (loadSceneShaders fs).2 = [cubeShaderPath, axesShaderPath, cubeShaderPath] ∧
    ((loadSceneShaders fs).2.all
      (fun p => p = cubeShaderPath || p = axesShaderPath)) = true := by
  refine ⟨rfl, rfl, ?_⟩
  have h : (loadSceneShaders fs).2 =
      [cubeShaderPath, axesShaderPath, cubeShaderPath] := rfl
  rw [h]
  decide

/-! ## Geometry (main.cpp lines 188-251) -/

/-- `cubePositions` (main.cpp lines 189-200): 8 corner vertices, 3
floats each. -/
def cubePositions : List ℚ :=
  [-1/2, -1/2,  1/2,
    1/2, -1/2,  1/2,
    1/2,  1/2,  1/2,
   -1/2,  1/2,  1/2,
   -1/2, -1/2, -1/2,
    1/2, -1/2, -1/2,
    1/2,  1/2, -1/2,
   -1/2,  1/2, -1/2]

/-- `cubeIndices` (main.cpp lines 202-215): 12 triangles, 36 indices. -/
def cubeIndices : List Nat :=
  [0, 1, 2, 2, 3, 0,
   4, 5, 6, 6, 7, 4,
   0, 3, 7, 7, 4, 0,
   1, 2, 6, 6, 5, 1,
   3, 2, 6, 6, 7, 3,
   0, 1, 5, 5, 4, 0]

/-- `pyramidPositions` (main.cpp lines 233-241): 4 base corners and the
apex, 3 floats each. -/
def pyramidPositions : List ℚ :=
  [-1/2, 0, -1/2,
    1/2, 0, -1/2,
    1/2, 0,  1/2,
   -1/2, 0,  1/2,
    0,   1,  0]

/-- `pyramidIndices` (main.cpp lines 243-251): 6 triangles, 18
indices. -/
def pyramidIndices : List Nat :=
  [0, 1, 2, 2, 3, 0,
   0, 1, 4,
   1, 2, 4,
   2, 3, 4,
   3, 0, 4]

/-- Vertices in a buffer of tightly packed 3-float positions. -/
def vertexCountOf (positions : List ℚ) : Nat := positions.length / 3

/-- C10.  The cube buffer holds 8 vertices and every one of its 36
indices is below 8; the pyramid buffer holds 5 vertices and every one
of its 18 indices is below 5 — so the two indexed draw calls (36 and 18
indices) reference only vertices present in the uploaded buffers. -/
theorem c10_index_bounds :
    vertexCountOf cubePositions = 8 ∧
    vertexCountOf pyramidPositions = 5 ∧
    cubeIndices.length = 36 ∧
    pyramidIndices.length = 18 ∧
    cubeIndices.all (fun i => i < vertexCountOf cubePositions) = true ∧
    pyramidIndices.all (fun i => i < vertexCountOf pyramidPositions) = true := by
  decide
